import Mathlib

/-!
Verification development for `src/get_performance.py`, a link-prediction
evaluation harness.  The script is shallowly embedded below: the feature-set
selection predicates, the control flow of `predict`, the caching entry point
`single`, and the batch drivers `discrete`, `single_all_features` and the
network enumeration of `all` are translated into executable Lean functions.

The filesystem is modelled as an explicit state (`FS`): a set of existing
directory paths plus a map from file paths to textual contents.  The numeric
machine-learning pipeline (loading `.npy` arrays, train/test split, model
fitting, AUC computation) is abstracted by an oracle parameter supplying the
textual AUC value that the evaluation would produce; every control-flow
decision of the source (which branch raises, which returns the null sentinel,
what is written where) is embedded faithfully.
-/

namespace GetPerformance

/-- Python `str.startswith`, over character lists: does the second list start
with the first (the pattern)? -/
def charsMatch : List Char → List Char → Bool
  | [], _ => true
  | _ :: _, [] => false
  | p :: ps, c :: cs => p == c && charsMatch ps cs

/-- Python `pat in x` (substring test), over character lists. -/
def charsContain (pat : List Char) : List Char → Bool
  | [] => charsMatch pat []
  | c :: cs => charsMatch pat (c :: cs) || charsContain pat cs

/-- `x.startswith(pat)` from Python, on `String`. -/
def strStartsWith (x pat : String) : Bool := charsMatch pat.data x.data

/-- `pat in x` from Python, on `String`. -/
def strContains (x pat : String) : Bool := charsContain pat.data x.data

/-- The static feature-file whitelist from `predict` (get_performance.py
lines 31-33). -/
def staticFiles : List String := ["aa.npy", "cn.npy", "jc.npy", "pa.npy"]

/-- The `feature_set` dispatch of `predict` (lines 31-55): each recognized
identifier yields the filename predicate `check`; an unrecognized identifier
yields `none` (the source raises `Exception(f-string not recognized)`). -/
def selectCheck (feature_set : String) : Option (String → Bool) :=
  match feature_set with
  | "I" => some (fun x => staticFiles.contains x)
  | "II-A" => some (fun x => !(strStartsWith x "na"))
  | "II-B" => some (fun x =>
      (staticFiles.contains x || strContains x "_q100") && !(strStartsWith x "na"))
  | "III-A" => some (fun x => strStartsWith x "na")
  | "III-B" => some (fun x => strStartsWith x "na" && strContains x "_q100")
  | "I+II-A+III-A" => some (fun x =>
      strStartsWith x "na" || staticFiles.contains x || !(strStartsWith x "na"))
  | _ => none

/-- Applying the selected predicate of `feature_set` to a filename. -/
def applyCheck (feature_set x : String) : Option Bool :=
  (selectCheck feature_set).map (fun p => p x)

/-- The `n_jobs` each classifier variant receives in `predict` (lines 80-96):
LogisticRegression gets `n_jobs` unchanged (line 84); RandomForest and XGBoost
get `100 if n_jobs < 0 else n_jobs` (lines 89, 93); an unrecognized `clf`
raises (line 96), modelled as `none`. -/
def effectiveNJobs (clf : String) (n_jobs : Int) : Option Int :=
  match clf with
  | "LogisticRegression" => some n_jobs
  | "RandomForest" => some (if n_jobs < 0 then 100 else n_jobs)
  | "XGBoost" => some (if n_jobs < 0 then 100 else n_jobs)
  | _ => none

/-- Filesystem state: existing directories and files (path, textual content). -/
structure FS where
  dirs : List String
  files : List (String × String)
deriving DecidableEq, Repr

/-- `os.path.isdir`. -/
def FS.isDir (fs : FS) (p : String) : Bool := fs.dirs.contains p

/-- `os.path.isfile`. -/
def FS.isFile (fs : FS) (p : String) : Bool := fs.files.any (fun kv => kv.1 == p)

/-- `os.makedirs(p, exist_ok=True)` (only the leaf path is tracked). -/
def FS.mkdirs (fs : FS) (p : String) : FS :=
  if fs.isDir p then fs else { fs with dirs := p :: fs.dirs }

/-- `open(p, "w"); write(c)`: create or overwrite the file at `p`. -/
def FS.write (fs : FS) (p c : String) : FS :=
  { fs with files := (p, c) :: fs.files.filter (fun kv => !(kv.1 == p)) }

/-- `os.path.join` as used by the script (absolute left part). -/
def pjoin (a b : String) : String := a ++ "/" ++ b

/-- The Python exceptions `predict` and its asserts can raise. -/
inductive PyError where
  | unrecognizedFeatureSet (feature_set : String)
  | missingDirectory (directory : String)
  | missingSamples (path : String)
  | invalidClf (clf : String)
deriving DecidableEq, Repr

/-- The outcome of `predict`: a raised exception, the `None` sentinel
(missing `features/` subdirectory), or a computed AUC (textual form). -/
inductive PResult where
  | err (e : PyError)
  | noneVal
  | auc (text : String)
deriving DecidableEq, Repr

/-- What one call of `predict` did: its outcome, whether the dataset loader
ran (the `features/` arrays and `samples.pkl` were read, lines 66-75),
whether a model was fit (lines 80-103), and the `n_jobs` handed to the
fitted classifier. -/
structure PredictTrace where
  result : PResult
  loaderInvoked : Bool
  evaluatorInvoked : Bool
  fitNJobs : Option Int
deriving DecidableEq, Repr

/-- The evaluation oracle abstracting the numeric pipeline: given
(directory, feature_set, clf) it supplies the textual AUC the run would
produce.  Control flow never depends on the value. -/
abbrev Oracle := String → String → String → String

/-- `predict(directory, feature_set, clf, random_state, n_jobs)`
(lines 26-105).  The checks occur in source order: the `feature_set`
dispatch (raise on unrecognized), `assert os.path.isdir(directory)`,
the `features/` existence check (return `None`), the `samples.pkl`
assert, then loading and fitting; an invalid `clf` raises after the data
was loaded (line 96). -/
def predict (fs : FS) (directory feature_set clf : String)
    (random_state n_jobs : Int) (oracle : Oracle) : PredictTrace :=
  match selectCheck feature_set with
  | none => ⟨.err (.unrecognizedFeatureSet feature_set), false, false, none⟩
  | some _check =>
    if fs.isDir directory = false then
      ⟨.err (.missingDirectory directory), false, false, none⟩
    else if fs.isDir (pjoin directory "features") = false then
      ⟨.noneVal, false, false, none⟩
    else if fs.isFile (pjoin directory "samples.pkl") = false then
      ⟨.err (.missingSamples (pjoin directory "samples.pkl")), false, false, none⟩
    else
      match effectiveNJobs clf n_jobs with
      | none => ⟨.err (.invalidClf clf), true, false, none⟩
      | some k =>
        let _ := random_state
        ⟨.auc (oracle directory feature_set clf), true, true, some k⟩

/-- One recorded invocation of `single` (its five arguments). -/
structure SingleCall where
  network : Nat
  clf : String
  feature_set : String
  random_state : Int
  n_jobs : Int
deriving DecidableEq, Repr

/-- Program state threaded through the entry points: the filesystem, the log
of `single` invocations, everything printed, and counters of how often the
dataset loader ran and how often a model was fit. -/
structure World where
  fs : FS
  calls : List SingleCall
  printed : List String
  loaderRuns : Nat
  evalRuns : Nat
deriving DecidableEq, Repr

/-- Python `f-string {network:02}`: the network id zero-padded to width 2. -/
def fmt02 (n : Nat) : String := if n < 10 then "0" ++ toString n else toString n

/-- The hardcoded network root `f-string /data/s1620444/{network:02}`
(line 137). -/
def rootDir (network : Nat) : String := "/data/s1620444/" ++ fmt02 network

/-- The result-artifact path `properties/{feature_set}_{clf}.float` for a
(network, feature_set, clf) key (lines 139-142). -/
def artifactPath (network : Nat) (feature_set clf : String) : String :=
  pjoin (pjoin (rootDir network) "properties") (feature_set ++ "_" ++ clf ++ ".float")

/-- `single(network, clf, feature_set, random_state, n_jobs)` (lines 130-150):
creates the network root and its `properties/` subdirectory, then returns
early if the result artifact exists; otherwise runs `predict` and persists a
non-`None` AUC.  A raised exception is returned as `some e` alongside the
world at raise time (Python side effects are not rolled back). -/
def single (w : World) (network : Nat) (clf feature_set : String)
    (random_state n_jobs : Int) (oracle : Oracle) : World × Option PyError :=
  let directory := rootDir network
  let directory_out := pjoin directory "properties"
  let filepath_out := pjoin directory_out (feature_set ++ "_" ++ clf ++ ".float")
  let w1 : World := { w with
    fs := (w.fs.mkdirs directory).mkdirs directory_out,
    calls := w.calls ++ [⟨network, clf, feature_set, random_state, n_jobs⟩] }
  if w1.fs.isFile filepath_out then
    ({ w1 with printed := w1.printed ++ ["this is a file"] }, none)
  else
    let t := predict w1.fs directory feature_set clf random_state n_jobs oracle
    let w2 : World := { w1 with
      loaderRuns := w1.loaderRuns + (if t.loaderInvoked then 1 else 0),
      evalRuns := w1.evalRuns + (if t.evaluatorInvoked then 1 else 0) }
    match t.result with
    | .err e => (w2, some e)
    | .noneVal => ({ w2 with printed := w2.printed ++ ["None"] }, none)
    | .auc v => ({ w2 with printed := w2.printed ++ [v],
                           fs := w2.fs.write filepath_out v }, none)

/-- The six feature-set identifiers iterated by `single_all_features`
(line 125) and the default of `discrete` (line 108). -/
def feature_sets : List String :=
  ["I", "II-A", "II-B", "III-A", "III-B", "I+II-A+III-A"]

/-- The loop body list of `single_all_features` (lines 126-128): for each
feature set, print the banner and call `single(network=network,
feature_set=f)` — the Python call passes only these two keyword arguments, so
`single` runs with its defaults (clf LogisticRegression, random_state 42,
n_jobs -1, lines 132-135).  An uncaught exception aborts the loop. -/
def runFeatureSets (network : Nat) (oracle : Oracle) :
    World → List String → World × Option PyError
  | w, [] => (w, none)
  | w, f :: rest =>
    let w0 : World := { w with
      printed := w.printed ++ ["network " ++ toString network ++ ", feature " ++ f] }
    let r := single w0 network "LogisticRegression" f 42 (-1) oracle
    match r.2 with
    | none => runFeatureSets network oracle r.1 rest
    | some e => (r.1, some e)

/-- `single_all_features(network, clf, random_state, n_jobs)` (lines 120-128).
Its `clf`, `random_state` and `n_jobs` parameters are accepted but never
forwarded: the body calls `single(network=network, feature_set=f)`. -/
def single_all_features (w : World) (network : Nat) (clf : String)
    (random_state n_jobs : Int) (oracle : Oracle) : World × Option PyError :=
  let _ := clf
  let _ := random_state
  let _ := n_jobs
  runFeatureSets network oracle w feature_sets

/-- The ten hardcoded network ids of `discrete` (line 110). -/
def discrete_ids : List Nat := [18, 20, 21, 9, 4, 8, 24, 16, 11, 10]

/-- The diagnostic `discrete` prints when a unit fails (lines 115-117). -/
def diagMsg (i : Nat) (f : String) : String :=
  "COULD NOT EXTRACT FEATURES NETWORK ID " ++ toString i ++ ", FEATURES " ++ f

/-- The `try/except` loop body of `discrete` (lines 112-117): call `single`
with defaults; on any exception print the diagnostic and continue. -/
def discreteStep (w : World) (i : Nat) (f : String) (oracle : Oracle) : World :=
  let r := single w i "LogisticRegression" f 42 (-1) oracle
  match r.2 with
  | none => r.1
  | some _ => { r.1 with printed := r.1.printed ++ [diagMsg i f] }

/-- `discrete(feature_set)` (lines 107-117): for each hardcoded network id and
each requested feature set, run one tolerant step.  Total: every exception is
caught by the bare `except`. -/
def discrete (w : World) (feature_set : List String) (oracle : Oracle) : World :=
  discrete_ids.foldl
    (fun wi i => feature_set.foldl (fun wf f => discreteStep wf i f oracle) wi) w

/-- The fixed exclusion list of `all` (line 163). -/
def excluded_networks : List Nat := [5, 15, 17, 26, 27]

/-- The network list computed by `all` (lines 160-165): with no network given,
`np.arange(1, 31)` (the integers 1..30) filtered by the exclusion list;
otherwise the singleton.  The shuffle and dispatch of `all` (lines 166-176)
affect scheduling order only and are not modelled. -/
def allNetworks (network : Option Nat) : List Nat :=
  match network with
  | none => (List.range' 1 30).filter (fun n => !(excluded_networks.contains n))
  | some n => [n]

/-- The `single` calls `discrete` performs, in order. -/
def discreteCalls (feature_set : List String) : List SingleCall :=
  (discrete_ids.map (fun i =>
    feature_set.map (fun f =>
      (⟨i, "LogisticRegression", f, 42, -1⟩ : SingleCall)))).flatten

/-- The `single` calls one `single_all_features` run performs when nothing
raises: all six feature sets with the default arguments of `single`. -/
def sixDefaultCalls (network : Nat) : List SingleCall :=
  feature_sets.map (fun f => ⟨network, "LogisticRegression", f, 42, -1⟩)

/-- A fixed oracle for concrete evaluations. -/
def oracle0 : Oracle := fun _ _ _ => "0.5"

/-- The empty initial state. -/
def emptyWorld : World := ⟨⟨[], []⟩, [], [], 0, 0⟩

/-- A state in which the result artifact for (1, II-A, LogisticRegression)
already exists. -/
def cachedWorld : World :=
  ⟨⟨["/data/s1620444/01", "/data/s1620444/01/properties"],
    [("/data/s1620444/01/properties/II-A_LogisticRegression.float", "0.9")]⟩,
   [], [], 0, 0⟩

/-- A state in which the root directory of network 3 exists but has no `features/`
subdirectory. -/
def noFeaturesWorld : World := ⟨⟨["/data/s1620444/03"], []⟩, [], [], 0, 0⟩

/-- A state in which network 4 has a `features/` directory but no
`samples.pkl`: its evaluation raises the samples assert. -/
def badSamplesWorld : World :=
  ⟨⟨["/data/s1620444/04", "/data/s1620444/04/features"], []⟩, [], [], 0, 0⟩

theorem FS.files_mkdirs (fs : FS) (p : String) : (fs.mkdirs p).files = fs.files := by
  unfold FS.mkdirs; split <;> rfl

theorem FS.isFile_mkdirs (fs : FS) (p q : String) :
    (fs.mkdirs p).isFile q = fs.isFile q := by
  unfold FS.isFile; rw [FS.files_mkdirs]

theorem FS.isDir_mkdirs (fs : FS) (p q : String) :
    (fs.mkdirs p).isDir q = (q == p || fs.isDir q) := by
  unfold FS.mkdirs
  split
  · rename_i h
    cases hq : (q == p)
    · simp
    · have hqp : q = p := eq_of_beq hq
      subst hqp
      simp [h]
  · unfold FS.isDir
    exact List.contains_cons

theorem FS.isDir_write (fs : FS) (p c q : String) :
    (fs.write p c).isDir q = fs.isDir q := rfl

theorem string_of_data_eq {a b : String} (h : a.data = b.data) : a = b := by
  cases a; cases b; exact congrArg String.mk h

theorem str_append_right_ne (s : String) {a b : String} (h : a ≠ b) :
    s ++ a ≠ s ++ b := by
  intro he
  apply h
  apply string_of_data_eq
  have hd : s.data ++ a.data = s.data ++ b.data := by
    rw [← String.data_append, ← String.data_append, he]
  exact List.append_cancel_left hd

theorem self_ne_pjoin (d b : String) : d ≠ pjoin d b := by
  intro he
  have hlen : d.length = (pjoin d b).length := by rw [← he]
  unfold pjoin at hlen
  rw [String.length_append, String.length_append] at hlen
  have hone : String.length "/" = 1 := rfl
  rw [hone] at hlen
  omega

theorem single_calls (w : World) (network : Nat) (clf feature_set : String)
    (random_state n_jobs : Int) (oracle : Oracle) :
    (single w network clf feature_set random_state n_jobs oracle).1.calls =
      w.calls ++ [⟨network, clf, feature_set, random_state, n_jobs⟩] := by
  unfold single
  dsimp only
  split
  · rfl
  · split <;> rfl

theorem single_fs_dirs (w : World) (network : Nat) (clf feature_set : String)
    (random_state n_jobs : Int) (oracle : Oracle) (q : String) :
    (single w network clf feature_set random_state n_jobs oracle).1.fs.isDir q =
      ((w.fs.mkdirs (rootDir network)).mkdirs
        (pjoin (rootDir network) "properties")).isDir q := by
  unfold single
  dsimp only
  split
  · rfl
  · split <;> rfl

theorem predict_noneVal (fs : FS) (directory feature_set clf : String)
    (random_state n_jobs : Int) (oracle : Oracle)
    (hrec : (selectCheck feature_set).isSome = true)
    (hdir : fs.isDir directory = true)
    (hfeat : fs.isDir (pjoin directory "features") = false) :
    predict fs directory feature_set clf random_state n_jobs oracle =
      ⟨.noneVal, false, false, none⟩ := by
  obtain ⟨p, hp⟩ := Option.isSome_iff_exists.mp hrec
  unfold predict
  rw [hp]
  simp [hdir, hfeat]

theorem predict_result_not_missingDir (fs : FS)
    (directory feature_set clf : String) (random_state n_jobs : Int)
    (oracle : Oracle) (hdir : fs.isDir directory = true) (d : String) :
    ∀ e, (predict fs directory feature_set clf random_state n_jobs
        oracle).result = .err e → e ≠ .missingDirectory d := by
  intro e he hcontra
  subst hcontra
  unfold predict at he
  cases hsel : selectCheck feature_set with
  | none =>
    rw [hsel] at he
    simp at he
  | some p =>
    rw [hsel] at he
    split at he
    · rename_i hcond
      simp at hcond
    · split at he
      · rename_i hcond
        rw [hdir] at hcond
        simp at hcond
      · split at he
        · simp at he
        · split at he
          · simp at he
          · split at he
            · simp at he
            · simp at he

theorem predict_missing_samples (fs : FS) (directory feature_set clf : String)
    (random_state n_jobs : Int) (oracle : Oracle)
    (hrec : (selectCheck feature_set).isSome = true)
    (hdir : fs.isDir directory = true)
    (hfeat : fs.isDir (pjoin directory "features") = true)
    (hsamp : fs.isFile (pjoin directory "samples.pkl") = false) :
    predict fs directory feature_set clf random_state n_jobs oracle =
      ⟨.err (.missingSamples (pjoin directory "samples.pkl")), false, false, none⟩ := by
  obtain ⟨p, hp⟩ := Option.isSome_iff_exists.mp hrec
  unfold predict
  rw [hp]
  simp [hdir, hfeat, hsamp]

theorem single_missing_samples (w : World) (network : Nat)
    (clf feature_set : String) (random_state n_jobs : Int) (oracle : Oracle)
    (hrec : (selectCheck feature_set).isSome = true)
    (hfeat : w.fs.isDir (pjoin (rootDir network) "features") = true)
    (hsamp : w.fs.isFile (pjoin (rootDir network) "samples.pkl") = false)
    (hart : w.fs.isFile (artifactPath network feature_set clf) = false) :
    (single w network clf feature_set random_state n_jobs oracle).2 =
      some (.missingSamples (pjoin (rootDir network) "samples.pkl")) := by
  have hfile : ((w.fs.mkdirs (rootDir network)).mkdirs
      (pjoin (rootDir network) "properties")).isFile
      (pjoin (pjoin (rootDir network) "properties")
        (feature_set ++ "_" ++ clf ++ ".float")) = false := by
    rw [FS.isFile_mkdirs, FS.isFile_mkdirs]
    exact hart
  have hdir2 : ((w.fs.mkdirs (rootDir network)).mkdirs
      (pjoin (rootDir network) "properties")).isDir (rootDir network) = true := by
    rw [FS.isDir_mkdirs, FS.isDir_mkdirs]
    simp
  have hfeat2 : ((w.fs.mkdirs (rootDir network)).mkdirs
      (pjoin (rootDir network) "properties")).isDir
      (pjoin (rootDir network) "features") = true := by
    rw [FS.isDir_mkdirs, FS.isDir_mkdirs, hfeat]
    simp
  have hsamp2 : ((w.fs.mkdirs (rootDir network)).mkdirs
      (pjoin (rootDir network) "properties")).isFile
      (pjoin (rootDir network) "samples.pkl") = false := by
    rw [FS.isFile_mkdirs, FS.isFile_mkdirs]
    exact hsamp
  have hp := predict_missing_samples
    ((w.fs.mkdirs (rootDir network)).mkdirs (pjoin (rootDir network) "properties"))
    (rootDir network) feature_set clf random_state n_jobs oracle hrec hdir2
    hfeat2 hsamp2
  unfold single
  dsimp only
  rw [hfile, hp]
  simp

theorem runFeatureSets_calls (network : Nat) (oracle : Oracle) :
    ∀ (fsList : List String) (w : World),
      (runFeatureSets network oracle w fsList).2 = none →
      (runFeatureSets network oracle w fsList).1.calls =
        w.calls ++ fsList.map
          (fun f => (⟨network, "LogisticRegression", f, 42, -1⟩ : SingleCall)) := by
  intro fsList
  induction fsList with
  | nil =>
    intro w _
    simp [runFeatureSets]
  | cons f rest ih =>
    intro w h
    unfold runFeatureSets at h ⊢
    dsimp only at h ⊢
    cases hs : (single { w with printed := w.printed ++
        ["network " ++ toString network ++ ", feature " ++ f] }
        network "LogisticRegression" f 42 (-1) oracle).2 with
    | none =>
      rw [hs] at h
      dsimp only at h ⊢
      have hcalls := single_calls { w with printed := w.printed ++
          ["network " ++ toString network ++ ", feature " ++ f] }
          network "LogisticRegression" f 42 (-1) oracle
      rw [ih _ h, hcalls]
      simp
    | some e =>
      rw [hs] at h
      simp at h

theorem discreteStep_calls (w : World) (i : Nat) (f : String) (oracle : Oracle) :
    (discreteStep w i f oracle).calls =
      w.calls ++ [⟨i, "LogisticRegression", f, 42, -1⟩] := by
  have hcalls := single_calls w i "LogisticRegression" f 42 (-1) oracle
  unfold discreteStep
  dsimp only
  cases hs : (single w i "LogisticRegression" f 42 (-1) oracle).2 with
  | none => exact hcalls
  | some e => exact hcalls

theorem discrete_inner_calls (i : Nat) (oracle : Oracle) :
    ∀ (fsets : List String) (w : World),
      (fsets.foldl (fun wf f => discreteStep wf i f oracle) w).calls =
        w.calls ++ fsets.map
          (fun f => (⟨i, "LogisticRegression", f, 42, -1⟩ : SingleCall)) := by
  intro fsets
  induction fsets with
  | nil => intro w; simp
  | cons f rest ih =>
    intro w
    simp only [List.foldl_cons, List.map_cons]
    rw [ih, discreteStep_calls]
    simp

theorem discrete_outer_calls (oracle : Oracle) (fsets : List String) :
    ∀ (ids : List Nat) (w : World),
      (ids.foldl (fun wi i =>
          fsets.foldl (fun wf f => discreteStep wf i f oracle) wi) w).calls =
        w.calls ++ (ids.map (fun i => fsets.map
          (fun f => (⟨i, "LogisticRegression", f, 42, -1⟩ : SingleCall)))).flatten := by
  intro ids
  induction ids with
  | nil => intro w; simp
  | cons i rest ih =>
    intro w
    simp only [List.foldl_cons, List.map_cons, List.flatten_cons]
    rw [ih, discrete_inner_calls]
    simp

/-- C1: for every filename string `x`, the selection predicate generated for
the feature-set identifier `I+II-A+III-A` returns true: it is the disjunction
"starts with na, OR in the static whitelist, OR does not start with na",
a tautology over all strings. -/
theorem c1_union_predicate_tautology (x : String) :
    applyCheck "I+II-A+III-A" x = some true := by
  show some (strStartsWith x "na" || staticFiles.contains x
      || !(strStartsWith x "na")) = some true
  cases h : strStartsWith x "na" <;> simp [h]

/-- C9: for each of the six recognized feature-set identifiers, the generated
selection predicate is a total Boolean function on strings: it answers `true`
or `false` on every filename and never raises. -/
theorem c9_predicates_total (id : String) (h : id ∈ feature_sets) :
    ∃ p, selectCheck id = some p ∧ ∀ x : String, p x = true ∨ p x = false := by
  simp only [feature_sets, List.mem_cons, List.not_mem_nil, or_false] at h
  rcases h with rfl | rfl | rfl | rfl | rfl | rfl <;>
    refine ⟨_, rfl, fun x => ?_⟩ <;>
    exact Or.symm (Bool.dichotomy _)

/-- Witness for C9 at the identifier `I`. -/
theorem c9_predicates_total_witness :
    ∃ p, selectCheck "I" = some p ∧ ∀ x : String, p x = true ∨ p x = false :=
  c9_predicates_total "I" (by decide)

/-- C7: for negative `n_jobs` the RandomForest and XGBoost variants receive an
effective internal parallelism of exactly 100 while LogisticRegression
receives the negative value unchanged; for `n_jobs >= 0` all three variants
receive `n_jobs` unchanged; and whenever `predict` fits a model, the `n_jobs`
it hands to the classifier is exactly this mapping. -/
theorem c7_effective_njobs (n_jobs : Int) :
    (n_jobs < 0 →
      effectiveNJobs "RandomForest" n_jobs = some 100 ∧
      effectiveNJobs "XGBoost" n_jobs = some 100 ∧
      effectiveNJobs "LogisticRegression" n_jobs = some n_jobs) ∧
    (0 ≤ n_jobs →
      effectiveNJobs "RandomForest" n_jobs = some n_jobs ∧
      effectiveNJobs "XGBoost" n_jobs = some n_jobs ∧
      effectiveNJobs "LogisticRegression" n_jobs = some n_jobs) ∧
    (∀ fs directory feature_set clf random_state oracle,
      (predict fs directory feature_set clf random_state n_jobs
        oracle).evaluatorInvoked = true →
      (predict fs directory feature_set clf random_state n_jobs
        oracle).fitNJobs = effectiveNJobs clf n_jobs) := by
  refine ⟨fun h => ?_, fun h => ?_, ?_⟩
  · simp [effectiveNJobs, h]
  · have h2 : ¬ n_jobs < 0 := not_lt.mpr h
    simp [effectiveNJobs, h2]
  · intro fs directory feature_set clf random_state oracle
    unfold predict
    split
    · simp
    · split
      · simp
      · split
        · simp
        · split
          · simp
          · split
            · simp
            · rename_i k hk
              simp [hk]

/-- Witness for C7 at `n_jobs = -1` and `n_jobs = 4`. -/
theorem c7_effective_njobs_witness :
    (effectiveNJobs "RandomForest" (-1) = some 100 ∧
     effectiveNJobs "XGBoost" (-1) = some 100 ∧
     effectiveNJobs "LogisticRegression" (-1) = some (-1)) ∧
    (effectiveNJobs "RandomForest" 4 = some 4 ∧
     effectiveNJobs "XGBoost" 4 = some 4 ∧
     effectiveNJobs "LogisticRegression" 4 = some 4) :=
  ⟨(c7_effective_njobs (-1)).1 (by decide), (c7_effective_njobs 4).2.1 (by decide)⟩

/-- Counterexample to C4: the claim says that with no network specified `all`
iterates over the integers 1 through 31 minus {5, 15, 17, 26, 27}; but 31,
which lies in that claimed set, is not among the iterated networks, because
`np.arange(1, 31)` stops at 30. -/
theorem c4_counterexample :
    (allNetworks none).contains 31 = false ∧
    31 ∈ List.range' 1 31 ∧ excluded_networks.contains 31 = false := by
  decide

/-- C4 (amended): when `all` is invoked with no network specified it iterates
over exactly the integers 1 through 30 minus the fixed exclusion list
{5, 15, 17, 26, 27}; when a network is specified, over exactly that one. -/
theorem c4_amended_networks :
    allNetworks none =
      [1, 2, 3, 4, 6, 7, 8, 9, 10, 11, 12, 13, 14, 16, 18, 19, 20, 21, 22, 23,
       24, 25, 28, 29, 30] ∧
    ∀ n, allNetworks (some n) = [n] :=
  ⟨by decide, fun n => rfl⟩

/-- C2: when the result artifact for (network, feature_set, clf) already
exists, `single` returns before invoking the dataset loader or the evaluator
and without modifying any file: a second invocation with identical arguments
therefore performs no evaluation. -/
theorem c2_single_idempotent_skip (w : World) (network : Nat)
    (clf feature_set : String) (random_state n_jobs : Int) (oracle : Oracle)
    (h : w.fs.isFile (artifactPath network feature_set clf) = true) :
    (single w network clf feature_set random_state n_jobs oracle).1.fs.files =
      w.fs.files ∧
    (single w network clf feature_set random_state n_jobs oracle).1.loaderRuns =
      w.loaderRuns ∧
    (single w network clf feature_set random_state n_jobs oracle).1.evalRuns =
      w.evalRuns ∧
    (single w network clf feature_set random_state n_jobs oracle).2 = none := by
  have hfile : ((w.fs.mkdirs (rootDir network)).mkdirs
      (pjoin (rootDir network) "properties")).isFile
      (pjoin (pjoin (rootDir network) "properties")
        (feature_set ++ "_" ++ clf ++ ".float")) = true := by
    rw [FS.isFile_mkdirs, FS.isFile_mkdirs]
    exact h
  unfold single
  dsimp only
  rw [hfile]
  simp [FS.files_mkdirs]

/-- Witness for C2: with the (1, II-A, LogisticRegression) artifact present,
`single` leaves the files untouched and runs neither loader nor evaluator. -/
theorem c2_single_idempotent_skip_witness :
    (single cachedWorld 1 "LogisticRegression" "II-A" 42 (-1) oracle0).1.fs.files =
      cachedWorld.fs.files ∧
    (single cachedWorld 1 "LogisticRegression" "II-A" 42 (-1) oracle0).1.loaderRuns =
      cachedWorld.loaderRuns ∧
    (single cachedWorld 1 "LogisticRegression" "II-A" 42 (-1) oracle0).1.evalRuns =
      cachedWorld.evalRuns ∧
    (single cachedWorld 1 "LogisticRegression" "II-A" 42 (-1) oracle0).2 = none :=
  c2_single_idempotent_skip cachedWorld 1 "LogisticRegression" "II-A" 42 (-1)
    oracle0 (by decide)

/-- C5: for a recognized feature set, when the `features/` subdirectory of
the network root does not exist and no artifact is cached, `single` raises
nothing (predict returns the `None` sentinel, printed verbatim) and writes no
result artifact, so a subsequent run will attempt the evaluation again. -/
theorem c5_missing_features_not_persisted (w : World) (network : Nat)
    (clf feature_set : String) (random_state n_jobs : Int) (oracle : Oracle)
    (hrec : (selectCheck feature_set).isSome = true)
    (hfeat : w.fs.isDir (pjoin (rootDir network) "features") = false)
    (hart : w.fs.isFile (artifactPath network feature_set clf) = false) :
    (single w network clf feature_set random_state n_jobs oracle).2 = none ∧
    (single w network clf feature_set random_state n_jobs oracle).1.fs.files =
      w.fs.files ∧
    (single w network clf feature_set random_state n_jobs oracle).1.printed =
      w.printed ++ ["None"] := by
  have hfile : ((w.fs.mkdirs (rootDir network)).mkdirs
      (pjoin (rootDir network) "properties")).isFile
      (pjoin (pjoin (rootDir network) "properties")
        (feature_set ++ "_" ++ clf ++ ".float")) = false := by
    rw [FS.isFile_mkdirs, FS.isFile_mkdirs]
    exact hart
  have hdir2 : ((w.fs.mkdirs (rootDir network)).mkdirs
      (pjoin (rootDir network) "properties")).isDir (rootDir network) = true := by
    rw [FS.isDir_mkdirs, FS.isDir_mkdirs]
    simp
  have hq1 : (pjoin (rootDir network) "features" ==
      pjoin (rootDir network) "properties") = false := by
    apply beq_eq_false_iff_ne.mpr
    show (rootDir network ++ "/") ++ "features" ≠ (rootDir network ++ "/") ++ "properties"
    exact str_append_right_ne _ (by decide)
  have hq2 : (pjoin (rootDir network) "features" == rootDir network) = false := by
    apply beq_eq_false_iff_ne.mpr
    exact (self_ne_pjoin (rootDir network) "features").symm
  have hfeat2 : ((w.fs.mkdirs (rootDir network)).mkdirs
      (pjoin (rootDir network) "properties")).isDir
      (pjoin (rootDir network) "features") = false := by
    rw [FS.isDir_mkdirs, FS.isDir_mkdirs, hq1, hq2, hfeat]
    rfl
  have hp := predict_noneVal
    ((w.fs.mkdirs (rootDir network)).mkdirs (pjoin (rootDir network) "properties"))
    (rootDir network) feature_set clf random_state n_jobs oracle hrec hdir2 hfeat2
  unfold single
  dsimp only
  rw [hfile, hp]
  simp [FS.files_mkdirs]

/-- Witness for C5 at network 3 (root directory present, no `features/`). -/
theorem c5_missing_features_not_persisted_witness :
    (single noFeaturesWorld 3 "LogisticRegression" "II-A" 42 (-1) oracle0).2 = none ∧
    (single noFeaturesWorld 3 "LogisticRegression" "II-A" 42 (-1)
      oracle0).1.fs.files = noFeaturesWorld.fs.files ∧
    (single noFeaturesWorld 3 "LogisticRegression" "II-A" 42 (-1)
      oracle0).1.printed = noFeaturesWorld.printed ++ ["None"] :=
  c5_missing_features_not_persisted noFeaturesWorld 3 "LogisticRegression" "II-A"
    42 (-1) oracle0 (by decide) (by decide) (by decide)

/-- C6: an unrecognized feature-set identifier makes `predict` raise the
configuration error before any data is loaded or any model is fit, and
`single` never writes an output artifact for that combination: its file state
is unchanged, and (when no artifact pre-exists) the error propagates. -/
theorem c6_unrecognized_feature_set (feature_set : String)
    (hfsu : selectCheck feature_set = none) :
    (∀ fs directory clf random_state n_jobs oracle,
      predict fs directory feature_set clf random_state n_jobs oracle =
        ⟨.err (.unrecognizedFeatureSet feature_set), false, false, none⟩) ∧
    (∀ w network clf random_state n_jobs (oracle : Oracle),
      (single w network clf feature_set random_state n_jobs oracle).1.fs.files =
        w.fs.files ∧
      (w.fs.isFile (artifactPath network feature_set clf) = false →
        (single w network clf feature_set random_state n_jobs oracle).2 =
          some (.unrecognizedFeatureSet feature_set))) := by
  have hpred : ∀ fs directory clf random_state n_jobs oracle,
      predict fs directory feature_set clf random_state n_jobs oracle =
        ⟨.err (.unrecognizedFeatureSet feature_set), false, false, none⟩ := by
    intro fs directory clf random_state n_jobs oracle
    unfold predict
    rw [hfsu]
  refine ⟨hpred, ?_⟩
  intro w network clf random_state n_jobs oracle
  have hfe : ((w.fs.mkdirs (rootDir network)).mkdirs
      (pjoin (rootDir network) "properties")).isFile
      (pjoin (pjoin (rootDir network) "properties")
        (feature_set ++ "_" ++ clf ++ ".float")) =
      w.fs.isFile (artifactPath network feature_set clf) := by
    rw [FS.isFile_mkdirs, FS.isFile_mkdirs]
    rfl
  constructor
  · unfold single
    dsimp only
    rw [hfe]
    cases hart : w.fs.isFile (artifactPath network feature_set clf)
    · rw [hpred]
      simp [FS.files_mkdirs]
    · simp [FS.files_mkdirs]
  · intro hart
    unfold single
    dsimp only
    rw [hfe, hart, hpred]
    simp

/-- Witness for C6 at the identifier `bogus`. -/
theorem c6_unrecognized_feature_set_witness :
    predict emptyWorld.fs "/data/s1620444/02" "bogus" "LogisticRegression"
      42 (-1) oracle0 =
      ⟨.err (.unrecognizedFeatureSet "bogus"), false, false, none⟩ ∧
    (single emptyWorld 2 "LogisticRegression" "bogus" 42 (-1)
      oracle0).1.fs.files = emptyWorld.fs.files ∧
    (single emptyWorld 2 "LogisticRegression" "bogus" 42 (-1) oracle0).2 =
      some (.unrecognizedFeatureSet "bogus") := by
  have h := c6_unrecognized_feature_set "bogus" rfl
  exact ⟨h.1 emptyWorld.fs "/data/s1620444/02" "LogisticRegression" 42 (-1) oracle0,
    (h.2 emptyWorld 2 "LogisticRegression" 42 (-1) oracle0).1,
    (h.2 emptyWorld 2 "LogisticRegression" 42 (-1) oracle0).2 (by decide)⟩

/-- C10: every invocation of `single` — including a cache skip and a null
evaluation — leaves the network root directory and its `properties/`
subdirectory existing (creating them before the cache check), and the dataset
directory-exists precondition of the dataset loader can never fail via `single`: `single`
never raises the missing-directory assertion. -/
theorem c10_single_creates_directories (w : World) (network : Nat)
    (clf feature_set : String) (random_state n_jobs : Int) (oracle : Oracle) :
    (single w network clf feature_set random_state n_jobs oracle).1.fs.isDir
      (rootDir network) = true ∧
    (single w network clf feature_set random_state n_jobs oracle).1.fs.isDir
      (pjoin (rootDir network) "properties") = true ∧
    ∀ d, (single w network clf feature_set random_state n_jobs oracle).2 ≠
      some (.missingDirectory d) := by
  have hdirs : ∀ q, ((w.fs.mkdirs (rootDir network)).mkdirs
      (pjoin (rootDir network) "properties")).isDir q =
      ((q == pjoin (rootDir network) "properties") ||
       ((q == rootDir network) || w.fs.isDir q)) := by
    intro q
    rw [FS.isDir_mkdirs, FS.isDir_mkdirs]
  refine ⟨?_, ?_, ?_⟩
  · rw [single_fs_dirs, hdirs]
    simp
  · rw [single_fs_dirs, hdirs]
    simp
  · intro d
    have hdir2 : ((w.fs.mkdirs (rootDir network)).mkdirs
        (pjoin (rootDir network) "properties")).isDir (rootDir network) = true := by
      rw [hdirs]
      simp
    have hnmd := predict_result_not_missingDir
      ((w.fs.mkdirs (rootDir network)).mkdirs (pjoin (rootDir network) "properties"))
      (rootDir network) feature_set clf random_state n_jobs oracle hdir2 d
    unfold single
    dsimp only
    split
    · simp
    · split
      · rename_i x e heq
        have hne := hnmd e heq
        simp [hne]
      · simp
      · simp

/-- Counterexample to C3: the claim says `single_all_features` uses the
classifier given by its `clf` argument for each evaluation.  At network 2
with `clf = "RandomForest"`, all six `single` invocations it performs use
`"LogisticRegression"` (the default of `single`), and none uses
`"RandomForest"`. -/
theorem c3_counterexample :
    ((single_all_features emptyWorld 2 "RandomForest" 7 5 oracle0).1.calls.map
      (fun c => c.clf)).contains "RandomForest" = false ∧
    (single_all_features emptyWorld 2 "RandomForest" 7 5 oracle0).1.calls.length
      = 6 ∧
    ((single_all_features emptyWorld 2 "RandomForest" 7 5 oracle0).1.calls.map
      (fun c => c.clf)).all (fun c => c == "LogisticRegression") = true := by
  decide

/-- C3 (amended): `single_all_features(network, clf, random_state, n_jobs)`
runs all six feature sets for the one network, but ignores its `clf`,
`random_state` and `n_jobs` arguments: when no unit raises, the six `single`
invocations it performs use the defaults of `single` — classifier
`LogisticRegression`, `random_state` 42, `n_jobs` -1 — in the fixed
feature-set order. -/
theorem c3_amended_runs_six_defaults (w : World) (network : Nat) (clf : String)
    (random_state n_jobs : Int) (oracle : Oracle)
    (h : (single_all_features w network clf random_state n_jobs oracle).2 = none) :
    (single_all_features w network clf random_state n_jobs oracle).1.calls =
      w.calls ++ sixDefaultCalls network :=
  runFeatureSets_calls network oracle feature_sets w h

/-- Witness for the amended C3 at network 2 from the empty state. -/
theorem c3_amended_runs_six_defaults_witness :
    (single_all_features emptyWorld 2 "XGBoost" 0 0 oracle0).1.calls =
      emptyWorld.calls ++ sixDefaultCalls 2 :=
  c3_amended_runs_six_defaults emptyWorld 2 "XGBoost" 0 0 oracle0 (by decide)

/-- C8: per-unit failures are caught only in `discrete`: (1) `discrete`
always processes every (network, feature-set) combination, whatever the
filesystem state; (2) when a unit raises, the loop body prints the diagnostic
naming the network id and feature set and produces a normal state, continuing
the iteration; (3) in `single_all_features` a raising unit is not caught: the
error propagates and the remaining feature sets are not attempted (here the
first unit, feature set I, raises the missing-samples assertion and the other
five feature sets are never invoked). -/
theorem c8_discrete_tolerant_single_all_features_not :
    (∀ (w : World) (fsets : List String) (oracle : Oracle),
      (discrete w fsets oracle).calls = w.calls ++ discreteCalls fsets) ∧
    (∀ (w : World) (i : Nat) (f : String) (oracle : Oracle) (w1 : World)
        (m : PyError),
      single w i "LogisticRegression" f 42 (-1) oracle = (w1, some m) →
      discreteStep w i f oracle =
        { w1 with printed := w1.printed ++ [diagMsg i f] }) ∧
    (∀ (w : World) (network : Nat) (clf : String) (random_state n_jobs : Int)
        (oracle : Oracle),
      w.fs.isDir (pjoin (rootDir network) "features") = true →
      w.fs.isFile (pjoin (rootDir network) "samples.pkl") = false →
      w.fs.isFile (artifactPath network "I" "LogisticRegression") = false →
      (single_all_features w network clf random_state n_jobs oracle).2 =
        some (.missingSamples (pjoin (rootDir network) "samples.pkl")) ∧
      (single_all_features w network clf random_state n_jobs oracle).1.calls =
        w.calls ++ [⟨network, "LogisticRegression", "I", 42, -1⟩]) := by
  refine ⟨?_, ?_, ?_⟩
  · intro w fsets oracle
    unfold discrete discreteCalls
    exact discrete_outer_calls oracle fsets discrete_ids w
  · intro w i f oracle w1 m hs
    unfold discreteStep
    rw [hs]
  · intro w network clf random_state n_jobs oracle hfeat hsamp hart
    have hm := single_missing_samples
      { w with printed := w.printed ++
          ["network " ++ toString network ++ ", feature " ++ "I"] }
      network "LogisticRegression" "I" 42 (-1) oracle rfl hfeat hsamp hart
    have hc := single_calls
      { w with printed := w.printed ++
          ["network " ++ toString network ++ ", feature " ++ "I"] }
      network "LogisticRegression" "I" 42 (-1) oracle
    constructor
    · show (runFeatureSets network oracle w feature_sets).2 = _
      unfold feature_sets runFeatureSets
      dsimp only
      rw [hm]
    · show (runFeatureSets network oracle w feature_sets).1.calls = _
      unfold feature_sets runFeatureSets
      dsimp only
      rw [hm]
      exact hc

/-- Witness for C8 at network 4, whose `features/` directory exists but whose
`samples.pkl` is missing: `single_all_features` aborts after the first unit. -/
theorem c8_discrete_tolerant_witness :
    (single_all_features badSamplesWorld 4 "LogisticRegression" 42 (-1)
      oracle0).2 =
      some (.missingSamples (pjoin (rootDir 4) "samples.pkl")) ∧
    (single_all_features badSamplesWorld 4 "LogisticRegression" 42 (-1)
      oracle0).1.calls =
      badSamplesWorld.calls ++ [⟨4, "LogisticRegression", "I", 42, -1⟩] :=
  c8_discrete_tolerant_single_all_features_not.2.2 badSamplesWorld 4
    "LogisticRegression" 42 (-1) oracle0 (by decide) (by decide) (by decide)

end GetPerformance
